import Mathlib

/-!
Model of the room-reservation chat bot.

Shallow embedding of the webhook event handlers (the most developed revision
of the webhook surface) and of the scheduled lottery job.  Firestore
documents become Lean structures; each handler becomes a pure function from
the current time, the parsed inbound event and the store to the new store
and the outbound reply.

Modelling conventions, each matching an observation about the source:
* All timestamps are milliseconds since the Unix epoch, as `Nat`.
* The per-user `states` document has only optional fields, so a missing
  document is observationally identical to a document with every field
  absent; the session store is therefore one `SessionState` record of
  `Option` fields (`emptyState` = no document).  A whole-document delete
  resets to `emptyState`.
* The model follows a single user: every reservation in `Db.resv` belongs
  to that user, matching the `where userId ==` queries of the source.
* `Date.now()` called several times inside one handler invocation is
  modelled as the single instant `now` at which the handler runs.
* JavaScript truthiness on numeric fields (`0` is falsy) is modelled by
  explicit `≠ 0` tests wherever the source guards with a bare value.
* The settings document (weekday allow-list and time-slot list) is the
  `ResvConfig` argument, standing for the result of `getConfig` (the
  Firestore-or-default value, cached with a 5-minute TTL).
* Postback payload strings are parsed once into the `Event` sum type; the
  payload strings the handlers emit are rebuilt by the `…Data` functions
  (URI-encoding of the band name is left abstract).
* A reservation's `date` field `"YYYY-MM-DDTHH:MM-HH:MM"` is modelled as
  the pair of its calendar day number (`day`) and its time-slot string
  (`slot`); the string range query `targetT00:00 ≤ date ≤ targetT23:59`
  selects exactly the records with `day = target`.
-/

/-- Reservation status strings used by the source
(`pending` at creation, `determined` by the lottery, `confirmed` later). -/
inductive ResStatus where
  | pending
  | determined
  | confirmed
deriving DecidableEq, Repr

/-- The `status` field of the `states` document.  `none` models the field
being absent from the document. -/
inductive SessStatus where
  | waitingBandName
  | editingBandName
  | waitingDeleteConfirm
  | viewingAllDateSelect
  | editingDatetime
  | editingDatetimeTime
deriving DecidableEq, Repr

/-- Result of `isCarouselButtonValid`: either valid or invalid with the
reason string of the source (`expired` / `outdated`). -/
inductive Validity where
  | valid
  | expired
  | outdated
deriving DecidableEq, Repr

/-- The `dialogType` option of `checkButtonAndGetErrorReply`. -/
inductive DialogType where
  | carousel
  | confirm
deriving DecidableEq, Repr

/-- One entry of the configured `timeSlots` list. -/
structure TimeSlot where
  label : String
  value : String
deriving DecidableEq, Repr

/-- The `settings/reservation` document (weekday allow-list, 0 = Sunday,
and the selectable time slots). -/
structure ResvConfig where
  availableDays : List Nat
  timeSlots : List TimeSlot
deriving DecidableEq, Repr

/-- A document of the `reservations` collection (single user, see header). -/
structure Reservation where
  id : Nat
  bandName : String
  day : Nat
  slot : String
  status : ResStatus
  createdAt : Nat
deriving DecidableEq, Repr

/-- The per-user `states` document.  Every field is optional in Firestore;
`none` models an absent field. -/
structure SessionState where
  status : Option SessStatus := none
  createdAt : Option Nat := none
  editingDocId : Option Nat := none
  editSelectedDate : Option Nat := none
  deletingDocId : Option Nat := none
  deletingBandName : Option String := none
  pendingQuickReply : Option (List String) := none
  quickReplyStartTime : Option Nat := none
  lastButtonPressTs : Option Nat := none
  lastViewMyCarouselTs : Option Nat := none
  lastViewMyMorePage : Option Nat := none
deriving DecidableEq, Repr

/-- Session store with no document / all fields absent. -/
def emptyState : SessionState := {}

/-- The document store reachable from one user's webhook events. -/
structure Db where
  resv : List Reservation
  nextId : Nat
  st : SessionState
deriving DecidableEq, Repr

/-- Outbound reply: plain text, text with quick-reply items (each item kept
as its postback data string), a carousel (each column kept as its list of
action data strings), or a confirm dialog. -/
inductive Reply where
  | text (msg : String)
  | textQR (msg : String) (items : List String)
  | carousel (cols : List (List String))
  | confirm (msg : String) (yesData noData : String)
deriving DecidableEq, Repr

/-- Inbound events after parsing: a text message or one postback per
`action` discriminator.  `Option` fields model `URLSearchParams.get`
returning `null` (or an empty string, which the source treats alike). -/
inductive Event where
  | text (msg : String)
  | selectDate (date : Nat) (band : String) (start : Option Nat)
  | finalize (date : Nat) (time : String) (band : String) (start : Option Nat)
  | viewReservations (date : Nat) (start : Option Nat)
  | editReservation (docId : Option Nat) (ts : Option Nat)
  | confirmDelete (docId : Option Nat) (band : String) (ts : Option Nat)
  | deleteReservation (docId : Option Nat) (ts : Option Nat)
  | cancelDelete (ts : Option Nat)
  | viewMyMore (page : Nat) (ts : Option Nat)
  | editDatetime (docId : Option Nat) (ts : Option Nat)
  | editSelectDate (docId : Option Nat) (date : Nat) (start : Option Nat)
  | editFinalize (docId : Option Nat) (date : Nat) (time : String) (start : Option Nat)
deriving DecidableEq, Repr

-- Trigger word lists (`TRIGGER_WORDS`).

def registerWords : List String := ["登録したい", "予約", "予約したい", "登録"]

def cancelWords : List String := ["キャンセル", "やめる", "終了"]

def viewAllWords : List String := ["全登録を見たい", "全予約", "一覧"]

def viewMyWords : List String := ["自分の登録を見たい", "自分の予約", "マイ予約"]

-- Fixed message texts (`MESSAGES` and the literals at the reply sites).

def errorMsg : String := "エラーが発生しました。もう一度お試しください。"

def sessionExpiredMsg : String := "⏰ 5分間経過したため、操作をキャンセルしました。\nもう一度お試しください。"

def lotteryTimeMsg : String := "⚠️ 現在は20:50〜21:00の抽選集計時間のため、操作はできません。21:00以降にお試しください。"

def lotteryTimeRegisterMsg : String := "⚠️ 現在は20:50〜21:00の抽選集計時間のため、予約操作はできません。21:00以降にお試しください。"

def carouselExpiredMsg : String := "⏰ このボタンは有効期限切れです。"

def carouselOutdatedMsg : String := "⚠️ このカルーセルは既に操作済みです。"

def confirmOutdatedMsg : String := "⚠️ この確認ダイアログは既に操作済みです。"

def carouselRefreshMsg : String := "「自分の登録を見たい」と送って最新の一覧を取得してください。"

def noAvailableDatesMsg : String := "現在、予約可能な枠がありません。（直近の水・木・土のみ予約可能です）"

def timeoutRegisterMsg : String := "⏰ 5分間経過したため、登録をキャンセルしました。\nもう一度「登録したい」と送ってください。"

def timeoutEditMsg : String := "⏰ 5分間経過したため、編集をキャンセルしました。\nもう一度お試しください。"

def invalidButtonContinueMsg : String := "⚠️ このボタンは無効です。\n\n選択を続けてください👇"

def reservedWordContinueMsg : String := "⚠️ 操作中のため予約語は使用できません。\n\n選択を続けてください👇\n(中断する場合は「キャンセル」と送ってください)"

def continueChoosingMsg : String := "選択を続けてください👇\n(中断する場合は「キャンセル」と送ってください)"

def cancelDoneMsg : String := "操作をキャンセルしました。"

def noViewDatesMsg : String := "現在、表示可能な日付がありません。"

def viewAllPromptMsg : String := "登録状況を見たい日付を選択してください👇"

def registerPromptMsg : String := "登録する【バンド名】を入力してください。\n(中断する場合は「キャンセル」と送ってください)"

def editPromptMsg : String := "新しい【バンド名】を入力してください。\n(中断する場合は「キャンセル」と送ってください)"

def editDatePromptMsg : String := "新しい日付を選択してください👇\n(中断する場合は「キャンセル」と送ってください)"

def deleteSuccessMsg : String := "🗑️ 登録を削除しました。"

def deleteCancelMsg : String := "削除をキャンセルしました。"

def alreadyPressedMsg : String := "⚠️ このボタンは既に押されています。\n「自分の登録を見たい」と送って最新の一覧を取得してください。"

def noMyResvMsg : String := "📝 あなたの登録はまだありません。"

def noMoreResvMsg : String := "これ以上の登録はありません。"

def noopData : String := "action=noop"

/-- The empty string (the `|| ''` fallback of the source). -/
def emptyStr : String := ""

/-- Source `reservedWordWarning t`: warning reply when a trigger phrase is sent as
a band name. -/
def reservedWordWarning (t : String) : String :=
  "⚠️「" ++ t ++ "」は予約語のため、バンド名として使用できません。\n\n別のバンド名を入力してください。\n(中断する場合は「キャンセル」と送ってください)"

/-- Body of the reply while a delete confirmation is pending. -/
def deletePendingWarning (band : String) : String :=
  "⚠️「" ++ band ++ "」の削除確認中です。\n\n確認ダイアログで「はい、削除する」または「いいえ」を選択してください。\n(中断する場合は「キャンセル」と送ってください)"

/-- Prompt after the band name was received (date selection step). -/
def dateSelectPrompt (band : String) : String :=
  "「" ++ band ++ "」で登録を進めます。\n予約する日付を選択してください👇"

/-- Confirm-dialog question for a delete. -/
def deleteConfirmQuestion (band : String) : String :=
  "「" ++ band ++ "」の登録を削除しますか？"

/-- Success reply of the finalize step (display formatting abstracted). -/
def finalizeDoneMsg (band : String) (date : Nat) (time : String) : String :=
  "✅ 予約を受け付けました\n\nバンド名: " ++ band ++ "\n日時: " ++ toString date ++ " " ++ time ++ "\n\n抽選結果をお待ちください。"

/-- Success reply after a band-name edit. -/
def bandUpdatedMsg (band : String) : String :=
  "✅ バンド名を「" ++ band ++ "」に更新しました。"

/-- Success reply after a date-time edit (display formatting abstracted). -/
def dateUpdatedMsg (date : Nat) (time : String) : String :=
  "✅ 日時を「" ++ toString date ++ " " ++ time ++ "」に更新しました。"

/-- Time-selection prompt of the register flow (display label abstracted). -/
def timeSelectPrompt (date : Nat) : String :=
  "📅 " ++ toString date ++ " ですね。\n利用時間を選んでください👇"

/-- Time-selection prompt of the edit flow (display label abstracted). -/
def editTimeSelectPrompt (date : Nat) : String :=
  "📅 " ++ toString date ++ " ですね。\n新しい時間を選択してください👇"

/-- The "view all" listing body (text rendering of the per-slot summary is
abstracted: no claim concerns its content). -/
def viewAllSummaryMsg : String := "登録状況の一覧"

-- Postback data builders (the strings embedded into issued controls).

def selectDateData (date : Nat) (band : String) (start : Nat) : String :=
  "action=select_date&date=" ++ toString date ++ "&band=" ++ band ++ "&start=" ++ toString start

def finalizeData (date : Nat) (time : String) (band : String) (start : Option Nat) : String :=
  "action=finalize&date=" ++ toString date ++ "&time=" ++ time ++ "&band=" ++ band ++ "&start=" ++ toString (start.getD 0)

def viewResvData (date : Nat) (start : Nat) : String :=
  "action=view_reservations&date=" ++ toString date ++ "&start=" ++ toString start

def editResvData (docId : Nat) (ts : Nat) : String :=
  "action=edit_reservation&docId=" ++ toString docId ++ "&ts=" ++ toString ts

def editDtData (docId : Nat) (ts : Nat) : String :=
  "action=edit_datetime&docId=" ++ toString docId ++ "&ts=" ++ toString ts

def confirmDeleteData (docId : Nat) (band : String) (ts : Nat) : String :=
  "action=confirm_delete&docId=" ++ toString docId ++ "&band=" ++ band ++ "&ts=" ++ toString ts

def deleteResvData (docId : Option Nat) (ts : Nat) : String :=
  "action=delete_reservation&docId=" ++ toString (docId.getD 0) ++ "&ts=" ++ toString ts

def cancelDeleteData (ts : Nat) : String :=
  "action=cancel_delete&ts=" ++ toString ts

def viewMyMoreData (page : Nat) (ts : Nat) : String :=
  "action=view_my_more&page=" ++ toString page ++ "&ts=" ++ toString ts

def editSelectDateData (docId : Option Nat) (date : Nat) (start : Nat) : String :=
  "action=edit_select_date&docId=" ++ toString (docId.getD 0) ++ "&date=" ++ toString date ++ "&start=" ++ toString start

def editFinalizeData (docId : Option Nat) (date : Nat) (time : String) (start : Option Nat) : String :=
  "action=edit_finalize&docId=" ++ toString (docId.getD 0) ++ "&date=" ++ toString date ++ "&time=" ++ time ++ "&start=" ++ toString (start.getD 0)

-- Time helpers.

/-- Source `SESSION_TIMEOUT_MINUTES`-based check: `(now − startTime) / 60000 ≥ 5`.
Over exact millisecond arithmetic this is `startTime + 300000 ≤ now`
(false whenever `now < startTime`, as the negative float quotient is). -/
def isSessionExpired (now startTime : Nat) : Bool :=
  decide (startTime + 300000 ≤ now)

/-- Milliseconds shifted to JST (`now + 9h`), as the source does before
reading UTC components. -/
def jstMs (now : Nat) : Nat := now + 32400000

/-- Source `getUTCHours()` of the JST-shifted time. -/
def jstHour (now : Nat) : Nat := jstMs now / 3600000 % 24

/-- Source `getUTCMinutes()` of the JST-shifted time. -/
def jstMin (now : Nat) : Nat := jstMs now / 60000 % 60

/-- Calendar day number (days since the epoch) of the JST-shifted time. -/
def jstDay (now : Nat) : Nat := jstMs now / 86400000

/-- Source `getUTCDay()` of a day number: day 0 (1970-01-01) was a Thursday. -/
def weekday (day : Nat) : Nat := (day + 4) % 7

/-- Source `isLotteryTime`: 20:50–20:59 JST, and only when the next day is an
allow-listed weekday. -/
def isLotteryTime (cfg : ResvConfig) (now : Nat) : Bool :=
  if jstHour now = 20 ∧ 50 ≤ jstMin now then
    cfg.availableDays.contains (weekday (jstDay now + 1))
  else
    false

/-- Source `getAvailableDateList`: candidate days are `start, …, start + 6` where
`start` is today plus the offset chosen from the 21:00 JST cutoff (and, in
`includeToday` mode, from whether today / tomorrow is an eligible weekday);
a day is kept when its weekday is allow-listed.  Each result is identified
by its day number (the source renders a label/value pair from it). -/
def getAvailableDateList (cfg : ResvConfig) (now : Nat) (includeToday : Bool) : List Nat :=
  let currentHour := jstHour now
  let daysToAdd :=
    if includeToday then
      if 21 ≤ currentHour then
        if cfg.availableDays.contains (weekday (jstDay now + 1)) then 1 else 2
      else
        if cfg.availableDays.contains (weekday (jstDay now)) then 0 else 1
    else
      if 21 ≤ currentHour then 2 else 1
  let start := jstDay now + daysToAdd
  (List.range 7).filterMap fun i =>
    if cfg.availableDays.contains (weekday (start + i)) then some (start + i) else none

/-- The default `settings/reservation` contents (Wed/Thu/Sat, six slots). -/
def defaultConfig : ResvConfig :=
  { availableDays := [3, 4, 6]
    timeSlots :=
      [ { label := "9:00~10:00", value := "09:00-10:00" }
      , { label := "10:00~12:00", value := "10:00-12:00" }
      , { label := "12:00~14:00", value := "12:00-14:00" }
      , { label := "14:00~16:00", value := "14:00-16:00" }
      , { label := "16:00~18:00", value := "16:00-18:00" }
      , { label := "18:00~20:00", value := "18:00-20:00" } ] }

-- Freshness guard.

/-- Source `isCarouselButtonValid`: expired when the button's own 5-minute window
has elapsed, else outdated when a (truthy) `lastButtonPressTs` watermark
is at or after the button's timestamp. -/
def isCarouselButtonValid (now buttonTs : Nat) (st : SessionState) : Validity :=
  if isSessionExpired now buttonTs then
    .expired
  else
    match st.lastButtonPressTs with
    | some w => if w ≠ 0 ∧ buttonTs ≤ w then .outdated else .valid
    | none => .valid

/-- Source `recordButtonPress`: merge-write of `lastButtonPressTs = Date.now()`. -/
def recordButtonPress (now : Nat) (st : SessionState) : SessionState :=
  { st with lastButtonPressTs := some now }

/-- Source `isViewMyMoreValid`: forward-only page guard for the "show more"
control of one listing generation. -/
def isViewMyMoreValid (page carouselTs : Nat) (st : SessionState) : Bool :=
  if st.lastViewMyCarouselTs ≠ some carouselTs then
    true
  else if page ≤ st.lastViewMyMorePage.getD 0 then
    false
  else
    true

/-- Source `recordViewMyMore`: merge-write of the listing generation / page pair. -/
def recordViewMyMore (page carouselTs : Nat) (st : SessionState) : SessionState :=
  { st with lastViewMyCarouselTs := some carouselTs, lastViewMyMorePage := some page }

/-- Source `getOngoingOperationReply`: when a quick-reply set is pending, either
clear it (with `status` and `createdAt`) if its own window expired and
report nothing, or re-send the stored set with a message chosen from the
flags.  Returns the (possibly cleaned) session and the optional reply. -/
def getOngoingOperationReply (now : Nat) (st : SessionState)
    (isInvalidButton isReservedWord : Bool) : SessionState × Option Reply :=
  match st.pendingQuickReply with
  | none => (st, none)
  | some q =>
    let expiredStart :=
      match st.quickReplyStartTime with
      | some t => decide (t ≠ 0) && isSessionExpired now t
      | none => false
    if expiredStart then
      ({ st with pendingQuickReply := none, quickReplyStartTime := none,
                 status := none, createdAt := none }, none)
    else
      let msg :=
        if isInvalidButton then invalidButtonContinueMsg
        else if isReservedWord then reservedWordContinueMsg
        else continueChoosingMsg
      (st, some (.textQR msg q))

/-- Source `checkButtonAndGetErrorReply`: common guard of carousel / confirm
buttons.  A missing (or empty) `ts` passes with no check at all; a valid
one optionally records the press; an invalid one re-offers the pending
choices or falls back to the bare staleness message. -/
def checkButtonAndGetErrorReply (now : Nat) (ts : Option Nat)
    (recordPress : Bool) (dialogType : DialogType) (st : SessionState) :
    SessionState × Option Reply :=
  match ts with
  | none => (st, none)
  | some t =>
    match isCarouselButtonValid now t st with
    | .valid => ((if recordPress then recordButtonPress now st else st), none)
    | reason =>
      match getOngoingOperationReply now st true false with
      | (st', some r) => (st', some r)
      | (st', none) =>
        let msg :=
          if reason = .expired then carouselExpiredMsg
          else if dialogType = .confirm then confirmOutdatedMsg
          else carouselOutdatedMsg
        (st', some (.text (msg ++ "\n" ++ carouselRefreshMsg)))

-- Wizard state machine: field-clearing writes.

/-- The merge-delete of every wizard payload field performed by the cancel
handler and by the session-timeout branch of `handleOtherInput`
(`lastButtonPressTs`, `lastViewMyCarouselTs`, `lastViewMyMorePage` kept). -/
def clearWizardFields (st : SessionState) : SessionState :=
  { st with status := none, createdAt := none, editingDocId := none,
            editSelectedDate := none, deletingDocId := none,
            deletingBandName := none, pendingQuickReply := none,
            quickReplyStartTime := none }

/-- The merge-delete used by the delete-execute / delete-cancel handlers. -/
def clearDeleteFields (st : SessionState) : SessionState :=
  { st with status := none, deletingDocId := none, deletingBandName := none,
            createdAt := none }

/-- The merge-delete used by the view-all handler (pattern C). -/
def clearViewFields (st : SessionState) : SessionState :=
  { st with status := none, createdAt := none, pendingQuickReply := none,
            quickReplyStartTime := none }

/-- The `startTime && isSessionExpired(Number(startTime))` pattern used by
the payload-embedded timeout checks (`null` start skips the check). -/
def startTimedOut (now : Nat) (start : Option Nat) : Bool :=
  match start with
  | some s => isSessionExpired now s
  | none => false

-- Text-event handlers.

/-- Source `handleCancelRequest`: merge-delete of every wizard payload field,
keeping the replay-guard fields. -/
def handleCancelRequest (db : Db) : Db × Option Reply :=
  ({ db with st := clearWizardFields db.st }, some (.text cancelDoneMsg))

/-- Source `handleViewAllRequest`: offer the eligible dates (same-day included)
as quick-reply items and full-replace the session document. -/
def handleViewAllRequest (cfg : ResvConfig) (now : Nat) (db : Db) : Db × Option Reply :=
  let dates := getAvailableDateList cfg now true
  if dates.isEmpty then
    (db, some (.text noViewDatesMsg))
  else
    let items := dates.map fun d => viewResvData d now
    ({ db with st :=
        { emptyState with status := some .viewingAllDateSelect, createdAt := some now,
                          lastButtonPressTs := some now, pendingQuickReply := some items,
                          quickReplyStartTime := some now } },
     some (.textQR viewAllPromptMsg items))

/-- Sort key of the client-side listing sort (`date.localeCompare`):
day number first, then the slot string. -/
def resvKeyLe (a b : Reservation) : Bool :=
  decide (a.day < b.day ∨ (a.day = b.day ∧ a.slot ≤ b.slot))

/-- Stable insertion used to model `Array.prototype.sort` on the listing. -/
def insertResv (r : Reservation) : List Reservation → List Reservation
  | [] => [r]
  | x :: xs => if resvKeyLe x r then x :: insertResv r xs else r :: x :: xs

/-- Client-side sort of the user's reservations by date string. -/
def sortResv (l : List Reservation) : List Reservation :=
  l.foldr insertResv []

/-- Source `handleViewMyReservations`: pure read producing the paginated carousel
(9 live columns plus an optional "show more" column); each column is kept
as its list of action data strings.  During the lottery window the action
buttons are the inert placeholders. -/
def handleViewMyReservations (cfg : ResvConfig) (now page : Nat)
    (originalTs : Option Nat) (db : Db) : Reply :=
  if db.resv.isEmpty then
    .text noMyResvMsg
  else
    let sorted := sortResv db.resv
    let total := sorted.length
    let startIndex := page * 9
    if total ≤ startIndex then
      .text noMoreResvMsg
    else
      let endIndex := min (startIndex + 9) total
      let cAt := originalTs.getD now
      let isLot := isLotteryTime cfg now
      let cols := ((sorted.drop startIndex).take 9).map fun r =>
        if isLot then
          [noopData, noopData, noopData]
        else
          [editResvData r.id cAt, editDtData r.id cAt,
           confirmDeleteData r.id (if r.bandName = "" then "(バンド名なし)" else r.bandName) cAt]
      let cols :=
        if endIndex < total then
          cols ++ [[viewMyMoreData (page + 1) cAt, noopData, noopData]]
        else cols
      .carousel cols

/-- Source `handleRegisterRequest`: blackout check, then full-replace the session
with the awaiting-band-name state. -/
def handleRegisterRequest (cfg : ResvConfig) (now : Nat) (db : Db) : Db × Option Reply :=
  if isLotteryTime cfg now then
    (db, some (.text lotteryTimeRegisterMsg))
  else
    ({ db with st :=
        { emptyState with status := some .waitingBandName, createdAt := some now,
                          lastButtonPressTs := some now } },
     some (.text registerPromptMsg))

/-- The part of `handleOtherInput` after its session-timeout check:
dispatch on the session status. -/
def handleOtherInputRest (cfg : ResvConfig) (now : Nat) (text : String) (db : Db) :
    Db × Option Reply :=
  let st := db.st
  let isReserved := (registerWords ++ viewAllWords ++ viewMyWords).contains text
  match st.status with
  | some .waitingBandName =>
    if isReserved then
      (db, some (.text (reservedWordWarning text)))
    else
      match st.createdAt with
      | none => (db, none)  -- reading a missing createdAt throws: no reply, no write
      | some c0 =>
        let dates := getAvailableDateList cfg now false
        if dates.isEmpty then
          (db, some (.text noAvailableDatesMsg))
        else
          let items := dates.map fun d => selectDateData d text c0
          ({ db with st :=
              { st with status := none, createdAt := none,
                        pendingQuickReply := some items, quickReplyStartTime := some c0 } },
           some (.textQR (dateSelectPrompt text) items))
  | some .editingBandName =>
    if isReserved then
      (db, some (.text (reservedWordWarning text)))
    else
      let st' := { st with status := none, editingDocId := none, createdAt := none }
      match st.editingDocId with
      | some id =>
        if db.resv.any (·.id == id) then
          ({ db with
              st := st',
              resv := db.resv.map fun r => if r.id = id then { r with bandName := text } else r },
           some (.text (bandUpdatedMsg text)))
        else
          ({ db with st := st' }, some (.text errorMsg))
      | none => ({ db with st := st' }, some (.text errorMsg))
  | some .waitingDeleteConfirm =>
    (db, some (.text (deletePendingWarning (st.deletingBandName.getD emptyStr))))
  | _ =>
    match getOngoingOperationReply now st false isReserved with
    | (st', some r) => ({ db with st := st' }, some r)
    | (st', none) => ({ db with st := st' }, none)

/-- Source `handleOtherInput`: session-timeout check first, then the per-status
dispatch. -/
def handleOtherInput (cfg : ResvConfig) (now : Nat) (text : String) (db : Db) :
    Db × Option Reply :=
  match db.st.createdAt with
  | some c =>
    if isSessionExpired now c then
      ({ db with st := clearWizardFields db.st }, some (.text timeoutRegisterMsg))
    else
      handleOtherInputRest cfg now text db
  | none => handleOtherInputRest cfg now text db

/-- Source `handleTextEvent`: cancel first, then active-state dispatch, then the
trigger phrases. -/
def handleTextEvent (cfg : ResvConfig) (now : Nat) (text : String) (db : Db) :
    Db × Option Reply :=
  if cancelWords.contains text then
    handleCancelRequest db
  else if db.st.status.isSome then
    handleOtherInput cfg now text db
  else if registerWords.contains text then
    handleRegisterRequest cfg now db
  else if viewAllWords.contains text then
    handleViewAllRequest cfg now db
  else if viewMyWords.contains text then
    (db, some (handleViewMyReservations cfg now 0 none db))
  else
    (db, none)

-- Postback handlers.

/-- Pattern A `handleSelectDate`: embedded-start timeout check, then offer
the time slots (merge-write of the pending quick reply). -/
def handleSelectDate (cfg : ResvConfig) (now date : Nat) (band : String)
    (start : Option Nat) (db : Db) : Db × Option Reply :=
  if startTimedOut now start then
    (db, some (.text timeoutRegisterMsg))
  else
    let items := cfg.timeSlots.map fun sl => finalizeData date sl.value band start
    ({ db with st :=
        { db.st with pendingQuickReply := some items,
                     quickReplyStartTime := some (start.getD 0) } },
     some (.textQR (timeSelectPrompt date) items))

/-- Pattern B `handleFinalize`: embedded-start timeout check, then create
the pending reservation and advance the watermark (no button-validity
check is performed on this path). -/
def handleFinalize (now date : Nat) (time band : String) (start : Option Nat)
    (db : Db) : Db × Option Reply :=
  if startTimedOut now start then
    (db, some (.text timeoutRegisterMsg))
  else
    let r : Reservation :=
      { id := db.nextId, bandName := band, day := date, slot := time,
        status := .pending, createdAt := now }
    ({ resv := db.resv ++ [r], nextId := db.nextId + 1,
       st := { db.st with pendingQuickReply := none, quickReplyStartTime := none,
                          lastButtonPressTs := some now } },
     some (.text (finalizeDoneMsg band date time)))

/-- Pattern C `handleViewReservations`: timeout check, clear the view
fields either way, reply with the per-slot summary (body abstracted). -/
def handleViewReservations (now date : Nat) (start : Option Nat) (db : Db) :
    Db × Option Reply :=
  if startTimedOut now start then
    ({ db with st := clearViewFields db.st }, some (.text sessionExpiredMsg))
  else
    ({ db with st := clearViewFields db.st }, some (.text viewAllSummaryMsg))

/-- Pattern D `handleEditReservation`: button check (press not recorded by
the check), blackout check, then full-replace with the editing state. -/
def handleEditReservation (cfg : ResvConfig) (now : Nat) (docId : Option Nat)
    (ts : Option Nat) (db : Db) : Db × Option Reply :=
  match checkButtonAndGetErrorReply now ts false .carousel db.st with
  | (st1, some r) => ({ db with st := st1 }, some r)
  | (st1, none) =>
    if isLotteryTime cfg now then
      ({ db with st := st1 }, some (.text lotteryTimeMsg))
    else
      ({ db with st :=
          { emptyState with status := some .editingBandName, editingDocId := docId,
                            createdAt := some now, lastButtonPressTs := some now } },
       some (.text editPromptMsg))

/-- Pattern E `handleConfirmDelete`: button check with `recordPress`, then
merge-write the confirm-pending state and issue the confirm dialog whose
own timestamp is `now + 10`. -/
def handleConfirmDelete (now : Nat) (docId : Option Nat) (band : String)
    (ts : Option Nat) (db : Db) : Db × Option Reply :=
  match checkButtonAndGetErrorReply now ts true .carousel db.st with
  | (st1, some r) => ({ db with st := st1 }, some r)
  | (st1, none) =>
    let confirmTs := now + 10
    ({ db with st :=
        { st1 with status := some .waitingDeleteConfirm, deletingDocId := docId,
                   deletingBandName := some band, createdAt := some now } },
     some (.confirm (deleteConfirmQuestion band)
            (deleteResvData docId confirmTs) (cancelDeleteData confirmTs)))

/-- Pattern F `handleDeleteReservation`: button check with `recordPress`
(confirm dialog), clear the delete fields, then delete the reservation. -/
def handleDeleteReservation (now : Nat) (ts docId : Option Nat) (db : Db) :
    Db × Option Reply :=
  match checkButtonAndGetErrorReply now ts true .confirm db.st with
  | (st1, some r) => ({ db with st := st1 }, some r)
  | (st1, none) =>
    let st2 := clearDeleteFields st1
    match docId with
    | some id =>
      ({ db with st := st2, resv := db.resv.filter fun r => r.id != id },
       some (.text deleteSuccessMsg))
    | none => ({ db with st := st2 }, some (.text errorMsg))

/-- Pattern F2 `handleCancelDelete`: like the delete path without the
reservation delete. -/
def handleCancelDelete (now : Nat) (ts : Option Nat) (db : Db) : Db × Option Reply :=
  match checkButtonAndGetErrorReply now ts true .confirm db.st with
  | (st1, some r) => ({ db with st := st1 }, some r)
  | (st1, none) =>
    ({ db with st := clearDeleteFields st1 }, some (.text deleteCancelMsg))

/-- Pattern H `handleViewMyMore`: button check (press deliberately not
recorded), then the forward-only page guard, record, and re-render. -/
def handleViewMyMore (cfg : ResvConfig) (now page : Nat) (ts : Option Nat)
    (db : Db) : Db × Option Reply :=
  match checkButtonAndGetErrorReply now ts false .carousel db.st with
  | (st1, some r) => ({ db with st := st1 }, some r)
  | (st1, none) =>
    match ts with
    | some g =>
      if decide (g ≠ 0) && !isViewMyMoreValid page g st1 then
        ({ db with st := st1 }, some (.text alreadyPressedMsg))
      else
        let st2 := if g ≠ 0 then recordViewMyMore page g st1 else st1
        let db2 := { db with st := st2 }
        (db2, some (handleViewMyReservations cfg now page (some g) db2))
    | none =>
      let db2 := { db with st := st1 }
      (db2, some (handleViewMyReservations cfg now page none db2))

/-- Pattern I `handleEditDateTime`: button check, blackout check, then
full-replace with the date-editing state and the date quick replies. -/
def handleEditDateTime (cfg : ResvConfig) (now : Nat) (docId : Option Nat)
    (ts : Option Nat) (db : Db) : Db × Option Reply :=
  match checkButtonAndGetErrorReply now ts false .carousel db.st with
  | (st1, some r) => ({ db with st := st1 }, some r)
  | (st1, none) =>
    if isLotteryTime cfg now then
      ({ db with st := st1 }, some (.text lotteryTimeMsg))
    else
      let dates := getAvailableDateList cfg now false
      if dates.isEmpty then
        ({ db with st := st1 }, some (.text noAvailableDatesMsg))
      else
        let items := dates.map fun d => editSelectDateData docId d now
        ({ db with st :=
            { emptyState with status := some .editingDatetime, editingDocId := docId,
                              createdAt := some now, lastButtonPressTs := some now,
                              pendingQuickReply := some items,
                              quickReplyStartTime := some now } },
         some (.textQR editDatePromptMsg items))

/-- Pattern J `handleEditSelectDate`: timeout check (clearing the edit and
quick-reply fields), else full-replace with the time-editing state. -/
def handleEditSelectDate (cfg : ResvConfig) (now : Nat) (docId : Option Nat)
    (date : Nat) (start : Option Nat) (db : Db) : Db × Option Reply :=
  if startTimedOut now start then
    ({ db with st :=
        { db.st with status := none, editingDocId := none, createdAt := none,
                     pendingQuickReply := none, quickReplyStartTime := none } },
     some (.text timeoutEditMsg))
  else
    let items := cfg.timeSlots.map fun sl => editFinalizeData docId date sl.value start
    ({ db with st :=
        { emptyState with status := some .editingDatetimeTime, editingDocId := docId,
                          editSelectedDate := some date, createdAt := some now,
                          lastButtonPressTs := some now, pendingQuickReply := some items,
                          quickReplyStartTime := some (start.getD 0) } },
     some (.textQR (editTimeSelectPrompt date) items))

/-- Pattern K `handleEditFinalize`: timeout check (whole-document delete),
else clear the edit fields and update the reservation's date. -/
def handleEditFinalize (now : Nat) (docId : Option Nat) (date : Nat)
    (time : String) (start : Option Nat) (db : Db) : Db × Option Reply :=
  if startTimedOut now start then
    ({ db with st := emptyState }, some (.text timeoutEditMsg))
  else
    let st' := { db.st with status := none, editingDocId := none,
                            editSelectedDate := none, createdAt := none,
                            pendingQuickReply := none, quickReplyStartTime := none }
    match docId with
    | some id =>
      if db.resv.any (·.id == id) then
        ({ db with
            st := st',
            resv := db.resv.map fun r => if r.id = id then { r with day := date, slot := time } else r },
         some (.text (dateUpdatedMsg date time)))
      else
        ({ db with st := st' }, some (.text errorMsg))
    | none => ({ db with st := st' }, some (.text errorMsg))

/-- Source `handleEvent`: the webhook dispatch over parsed events. -/
def handleEvent (cfg : ResvConfig) (now : Nat) (e : Event) (db : Db) :
    Db × Option Reply :=
  match e with
  | .text msg => handleTextEvent cfg now msg db
  | .selectDate date band start => handleSelectDate cfg now date band start db
  | .finalize date time band start => handleFinalize now date time band start db
  | .viewReservations date start => handleViewReservations now date start db
  | .editReservation docId ts => handleEditReservation cfg now docId ts db
  | .confirmDelete docId band ts => handleConfirmDelete now docId band ts db
  | .deleteReservation docId ts => handleDeleteReservation now ts docId db
  | .cancelDelete ts => handleCancelDelete now ts db
  | .viewMyMore page ts => handleViewMyMore cfg now page ts db
  | .editDatetime docId ts => handleEditDateTime cfg now docId ts db
  | .editSelectDate docId date start => handleEditSelectDate cfg now docId date start db
  | .editFinalize docId date time start => handleEditFinalize now docId date time start db

/-- Run a sequence of timestamped inbound events against the store. -/
def runTrace (cfg : ResvConfig) (evs : List (Nat × Event)) (db : Db) : Db :=
  evs.foldl (fun d te => (handleEvent cfg te.1 te.2 d).1) db

/-- The initial store: no reservations, no session document. -/
def emptyDb : Db := { resv := [], nextId := 0, st := emptyState }

-- Lottery job (`api/lottery.ts`).

/-- In-place swap of two positions (out-of-range indices leave the list
unchanged; the source never produces them). -/
def swapL {α : Type} (l : List α) (i j : Nat) : List α :=
  match l[i]?, l[j]? with
  | some a, some b => (l.set i b).set j a
  | _, _ => l

/-- The Fisher–Yates loop of `shuffleArray`, from index `i` down to 1; the
random draw `Math.floor(Math.random() * (i + 1))` is modelled by the
choice function `f` reduced into range. -/
def shuffleAux {α : Type} (f : Nat → Nat) : Nat → List α → List α
  | 0, l => l
  | i + 1, l => shuffleAux f i (swapL l (i + 1) (f (i + 1) % (i + 2)))

/-- Source `shuffleArray` for an arbitrary source of random draws. -/
def shuffleArray {α : Type} (f : Nat → Nat) (l : List α) : List α :=
  shuffleAux f (l.length - 1) l

/-- One batched update written by the lottery for one reservation. -/
structure LotteryUpdate where
  docId : Nat
  status : ResStatus
  lotteryRank : Nat
  lotteryTotal : Nat
deriving DecidableEq, Repr

/-- The `shuffledDocs.forEach` body: rank `index + 1`, fixed total. -/
def rankDocs : List Reservation → Nat → Nat → List LotteryUpdate
  | [], _, _ => []
  | d :: ds, rank, total =>
    { docId := d.id, status := .determined, lotteryRank := rank, lotteryTotal := total }
      :: rankDocs ds (rank + 1) total

/-- The display name recorded into the per-slot order list. -/
def lotteryBandName (r : Reservation) : String :=
  if r.bandName = "" then "バンド名なし" else r.bandName

/-- The pending reservations of the target date (the string range query
on `date` selects exactly the records of that day). -/
def lotteryPendings (resv : List Reservation) (target : Nat) : List Reservation :=
  resv.filter fun r => decide (r.status = .pending) && decide (r.day = target)

/-- One slot's group inside `groupedByTimeSlot` (snapshot order kept). -/
def lotteryGroup (resv : List Reservation) (target : Nat) (slot : String) :
    List Reservation :=
  (lotteryPendings resv target).filter fun r => r.slot == slot

/-- The lottery handler's work for one time slot: shuffle the group, write
one ranked update per document, and record the ordered band-name list. -/
def lotteryForSlot (f : Nat → Nat) (resv : List Reservation) (target : Nat)
    (slot : String) : List LotteryUpdate × List String :=
  let group := lotteryGroup resv target slot
  let shuffled := shuffleArray f group
  (rankDocs shuffled 1 group.length, shuffled.map lotteryBandName)

-- Helper lemmas.

/-- A `swapL` is a permutation (counting argument over `List.count_set`). -/
theorem swapL_perm {α : Type} [DecidableEq α] (l : List α) (i j : Nat) :
    (swapL l i j).Perm l := by
  unfold swapL
  cases hi : l[i]? with
  | none => cases l[j]? <;> exact List.Perm.refl l
  | some a =>
    cases hj : l[j]? with
    | none => exact List.Perm.refl l
    | some b =>
      obtain ⟨hi', hia⟩ := List.getElem?_eq_some_iff.1 hi
      obtain ⟨hj', hjb⟩ := List.getElem?_eq_some_iff.1 hj
      rw [List.perm_iff_count]
      intro c
      have hjlen : j < (l.set i b).length := by simpa using hj'
      rw [List.count_set a c (l.set i b) j hjlen, List.count_set b c l i hi']
      have hsetb : (l.set i b).get ⟨j, hjlen⟩ = b := by
        simp only [List.get_eq_getElem, List.getElem_set]
        split <;> simp [hjb]
      rw [List.get_eq_getElem] at hsetb
      rw [hsetb, hia]
      have hmem : a ∈ l := hia ▸ List.getElem_mem hi'
      have hcnt : 1 ≤ l.count a := List.one_le_count_iff.2 hmem
      by_cases hac : (a == c) = true
      · have hc : a = c := eq_of_beq hac
        subst hc
        by_cases hbc : (b == a) = true <;> simp [hbc] <;> omega
      · by_cases hbc : (b == c) = true <;> simp [hac, hbc] <;> omega

/-- Every run of the Fisher–Yates loop permutes its input. -/
theorem shuffleAux_perm {α : Type} [DecidableEq α] (f : Nat → Nat) :
    ∀ (i : Nat) (l : List α), (shuffleAux f i l).Perm l
  | 0, l => List.Perm.refl l
  | i + 1, l =>
    (shuffleAux_perm f i (swapL l (i + 1) (f (i + 1) % (i + 2)))).trans
      (swapL_perm l (i + 1) (f (i + 1) % (i + 2)))

/-- Source `shuffleArray` returns a permutation of its input for every random
source. -/
theorem shuffleArray_perm {α : Type} [DecidableEq α] (f : Nat → Nat) (l : List α) :
    (shuffleArray f l).Perm l :=
  shuffleAux_perm f (l.length - 1) l

theorem rankDocs_map_rank (l : List Reservation) (r t : Nat) :
    (rankDocs l r t).map (·.lotteryRank) = List.range' r l.length := by
  induction l generalizing r with
  | nil => rfl
  | cons d ds ih => simp [rankDocs, List.range', ih]

theorem rankDocs_map_docId (l : List Reservation) (r t : Nat) :
    (rankDocs l r t).map (·.docId) = l.map (·.id) := by
  induction l generalizing r with
  | nil => rfl
  | cons d ds ih => simp [rankDocs, ih]

theorem rankDocs_map_total (l : List Reservation) (r t : Nat) :
    (rankDocs l r t).map (·.lotteryTotal) = List.replicate l.length t := by
  induction l generalizing r with
  | nil => rfl
  | cons d ds ih => simp [rankDocs, List.replicate, ih]

theorem rankDocs_map_status (l : List Reservation) (r t : Nat) :
    (rankDocs l r t).map (·.status) = List.replicate l.length ResStatus.determined := by
  induction l generalizing r with
  | nil => rfl
  | cons d ds ih => simp [rankDocs, List.replicate, ih]

/-- Membership in the 7-day scan of `getAvailableDateList`, generalized
over the window length. -/
theorem mem_filterMap_window (p : Nat → Bool) (s : Nat) :
    ∀ (n d : Nat),
      (d ∈ (List.range n).filterMap fun i => if p (s + i) then some (s + i) else none) ↔
        (s ≤ d ∧ d < s + n ∧ p d) := by
  intro n
  induction n with
  | zero =>
    intro d
    simp only [List.range_zero, List.filterMap_nil, List.not_mem_nil, false_iff]
    intro h
    omega
  | succ n ih =>
    intro d
    rw [List.range_succ, List.filterMap_append, List.mem_append, ih]
    constructor
    · rintro (⟨h1, h2, h3⟩ | h)
      · exact ⟨h1, by omega, h3⟩
      · by_cases hp : p (s + n) = true
        · simp [hp] at h
          subst h
          exact ⟨by omega, by omega, hp⟩
        · simp [hp] at h
    · rintro ⟨h1, h2, h3⟩
      by_cases hd : d < s + n
      · exact Or.inl ⟨h1, hd, h3⟩
      · have : d = s + n := by omega
        subst this
        exact Or.inr (by simp [h3])

/-- The scan of `getAvailableDateList` is strictly ascending. -/
theorem pairwise_filterMap_window (p : Nat → Bool) (s : Nat) :
    ∀ n : Nat,
      ((List.range n).filterMap fun i => if p (s + i) then some (s + i) else none).Pairwise (· < ·) := by
  intro n
  induction n with
  | zero => simp
  | succ n ih =>
    rw [List.range_succ, List.filterMap_append]
    rw [List.pairwise_append]
    refine ⟨ih, ?_, ?_⟩
    · by_cases hp : p (s + n) = true <;> simp [hp]
    · intro a ha b hb
      have h1 := (mem_filterMap_window p s n a).1 ha
      by_cases hp : p (s + n) = true
      · simp [hp] at hb
        omega
      · simp [hp] at hb

/-- C8.  With same-day inclusion disabled, `getAvailableDateList` returns
exactly the allow-listed weekdays of the 7-day window starting at
tomorrow (JST hour before 21) or the day after tomorrow (21:00 or later),
in strictly ascending date order; for allow-list Wed/Thu/Sat and a Monday
20:00 JST instant, the first returned date is the upcoming Wednesday. -/
theorem c8_available_dates :
    (∀ (cfg : ResvConfig) (now d : Nat),
      (d ∈ getAvailableDateList cfg now false ↔
        (jstDay now + (if 21 ≤ jstHour now then 2 else 1) ≤ d ∧
         d < jstDay now + (if 21 ≤ jstHour now then 2 else 1) + 7 ∧
         weekday d ∈ cfg.availableDays))) ∧
    (∀ (cfg : ResvConfig) (now : Nat),
      (getAvailableDateList cfg now false).Pairwise (· < ·)) ∧
    weekday (jstDay 385200000) = 1 ∧ jstHour 385200000 = 20 ∧
    (getAvailableDateList defaultConfig 385200000 false).head? = some 6 ∧
    weekday 6 = 3 := by
  refine ⟨?_, ?_, by decide, by decide, by decide, by decide⟩
  · intro cfg now d
    unfold getAvailableDateList
    simp only [Bool.false_eq_true, if_false]
    have h := mem_filterMap_window
      (fun x => cfg.availableDays.contains (weekday x))
      (jstDay now + (if 21 ≤ jstHour now then 2 else 1)) 7 d
    simpa [List.contains, List.elem_iff] using h
  · intro cfg now
    unfold getAvailableDateList
    simp only [Bool.false_eq_true, if_false]
    exact pairwise_filterMap_window
      (fun x => cfg.availableDays.contains (weekday x))
      (jstDay now + (if 21 ≤ jstHour now then 2 else 1)) 7

/-- C10.  For every random source, every reservation list, every target
date and every time slot, the lottery's per-slot batch gives the `n`
grouped pending reservations ranks that are exactly `1..n` (assigned
across a permutation of the group's document ids), sets every
`lotteryTotal` to `n`, sets every status to `determined`, and records an
order list of length `n`. -/
theorem c10_lottery_ranks (f : Nat → Nat) (resv : List Reservation)
    (target : Nat) (slot : String) :
    ((lotteryForSlot f resv target slot).1.map (·.lotteryRank) =
       List.range' 1 (lotteryGroup resv target slot).length) ∧
    ((lotteryForSlot f resv target slot).1.map (·.docId)).Perm
      ((lotteryGroup resv target slot).map (·.id)) ∧
    ((lotteryForSlot f resv target slot).1.map (·.lotteryTotal) =
       List.replicate (lotteryGroup resv target slot).length
         (lotteryGroup resv target slot).length) ∧
    ((lotteryForSlot f resv target slot).1.map (·.status) =
       List.replicate (lotteryGroup resv target slot).length ResStatus.determined) ∧
    (lotteryForSlot f resv target slot).2.length =
      (lotteryGroup resv target slot).length := by
  have hperm := shuffleArray_perm f (lotteryGroup resv target slot)
  have hlen : (shuffleArray f (lotteryGroup resv target slot)).length =
      (lotteryGroup resv target slot).length := hperm.length_eq
  unfold lotteryForSlot
  refine ⟨?_, ?_, ?_, ?_, ?_⟩
  · rw [rankDocs_map_rank, hlen]
  · rw [rankDocs_map_docId]
    exact hperm.map _
  · rw [rankDocs_map_total, hlen]
  · rw [rankDocs_map_status, hlen]
  · simp [hlen]

/-- C2.  For a pressed button with embedded timestamp `t`, the guard
reports `expired` exactly when `now − t ≥ 5` minutes (whatever the
watermark holds), reports `outdated` (the spec's "superseded") exactly
when the window has not elapsed but `t ≤ lastButtonPressTs`, and reports
`valid` otherwise; stated for sessions whose stored watermark, when
present, is a positive timestamp (as every `Date.now()` write is). -/
theorem c2_freshness_guard (now t : Nat) (st : SessionState)
    (hw : ∀ w, st.lastButtonPressTs = some w → 0 < w) :
    (isCarouselButtonValid now t st = .expired ↔ t + 300000 ≤ now) ∧
    (isCarouselButtonValid now t st = .outdated ↔
      (now < t + 300000 ∧ ∃ w, st.lastButtonPressTs = some w ∧ t ≤ w)) ∧
    (isCarouselButtonValid now t st = .valid ↔
      (now < t + 300000 ∧ ∀ w, st.lastButtonPressTs = some w → w < t)) := by
  unfold isCarouselButtonValid isSessionExpired
  cases hl : st.lastButtonPressTs with
  | none =>
    by_cases he : t + 300000 ≤ now <;> simp [he, hl] <;> omega
  | some w =>
    have hw0 : w ≠ 0 := by have := hw w hl; omega
    by_cases he : t + 300000 ≤ now <;> by_cases ht : t ≤ w <;>
      simp [he, ht, hl, hw0] <;> omega

/-- Witness for C2 at a concrete session and instant. -/
theorem c2_freshness_guard_witness :
    isCarouselButtonValid 400000 250000 { emptyState with lastButtonPressTs := some 260000 } = .outdated := by
  have h := (c2_freshness_guard 400000 250000
    { emptyState with lastButtonPressTs := some 260000 }
    (by intro w hw; cases Option.some.injEq .. ▸ hw; omega)).2.1
  exact h.2 ⟨by omega, 260000, rfl, by omega⟩

/-- A pending quick-reply set whose own window has not elapsed is re-sent
unchanged by `getOngoingOperationReply` (invalid-button flavour). -/
theorem getOngoing_unexpired (now : Nat) (st : SessionState) (q : List String)
    (qt : Nat) (hq : st.pendingQuickReply = some q)
    (hqt : st.quickReplyStartTime = some qt) (h0 : qt ≠ 0)
    (hy : now < qt + 300000) :
    getOngoingOperationReply now st true false =
      (st, some (.textQR invalidButtonContinueMsg q)) := by
  have hne : ¬ (qt + 300000 ≤ now) := by omega
  unfold getOngoingOperationReply isSessionExpired
  simp [hq, hqt, h0, hne]

/-- C6.  When a button press with a timestamp is rejected (expired or
superseded) and the session still holds a pending choice set issued less
than 5 minutes ago, the reply re-sends exactly that stored set with the
invalid-button notice (and the session is left untouched); the bare
staleness text is produced only when no unexpired stored set exists. -/
theorem c6_stale_button_recovery (now t : Nat) (st : SessionState)
    (hv : isCarouselButtonValid now t st ≠ .valid) :
    (∀ (q : List String) (qt : Nat) (rp : Bool) (dt : DialogType),
      st.pendingQuickReply = some q → st.quickReplyStartTime = some qt →
      qt ≠ 0 → now < qt + 300000 →
      checkButtonAndGetErrorReply now (some t) rp dt st =
        (st, some (.textQR invalidButtonContinueMsg q))) ∧
    (∀ (rp : Bool) (dt : DialogType) (m : String),
      (checkButtonAndGetErrorReply now (some t) rp dt st).2 = some (.text m) →
      st.pendingQuickReply = none ∨
        ∃ qt, st.quickReplyStartTime = some qt ∧ qt ≠ 0 ∧ qt + 300000 ≤ now) := by
  constructor
  · intro q qt rp dt hq hqt h0 hy
    unfold checkButtonAndGetErrorReply
    have hgo := getOngoing_unexpired now st q qt hq hqt h0 hy
    cases hres : isCarouselButtonValid now t st with
    | valid => exact absurd hres hv
    | expired => simp [hgo]
    | outdated => simp [hgo]
  · intro rp dt m hm
    cases hq : st.pendingQuickReply with
    | none => exact Or.inl rfl
    | some q =>
      refine Or.inr ?_
      cases hqt : st.quickReplyStartTime with
      | none =>
        exfalso
        have hshape : getOngoingOperationReply now st true false =
            (st, some (.textQR invalidButtonContinueMsg q)) := by
          unfold getOngoingOperationReply
          simp [hq, hqt]
        cases hres : isCarouselButtonValid now t st
        · exact hv hres
        · simp [checkButtonAndGetErrorReply, hres, hshape] at hm
        · simp [checkButtonAndGetErrorReply, hres, hshape] at hm
      | some qt =>
        by_cases hex : (qt ≠ 0 ∧ qt + 300000 ≤ now)
        · exact ⟨qt, rfl, hex.1, hex.2⟩
        · exfalso
          have hshape : getOngoingOperationReply now st true false =
              (st, some (.textQR invalidButtonContinueMsg q)) := by
            unfold getOngoingOperationReply isSessionExpired
            by_cases h0 : qt = 0
            · simp [hq, hqt, h0]
            · have : ¬ (qt + 300000 ≤ now) := by
                intro hle; exact hex ⟨h0, hle⟩
              simp [hq, hqt, h0, this]
          cases hres : isCarouselButtonValid now t st
          · exact hv hres
          · simp [checkButtonAndGetErrorReply, hres, hshape] at hm
          · simp [checkButtonAndGetErrorReply, hres, hshape] at hm

/-- C9.  A button payload with no `ts` field passes the common validity
check with no error, no expiry check and no watermark check; in
particular the delete-execute handler then deletes the targeted booking
unconditionally. -/
theorem c9_missing_ts_bypass :
    ∀ (now : Nat) (st : SessionState) (rp : Bool) (dt : DialogType)
      (db : Db) (id : Nat),
    checkButtonAndGetErrorReply now none rp dt st = (st, none) ∧
    (handleDeleteReservation now none (some id) db).1.resv =
      db.resv.filter (fun r => r.id != id) ∧
    (handleDeleteReservation now none (some id) db).2 =
      some (.text deleteSuccessMsg) :=
  fun _ _ _ _ _ _ => ⟨rfl, rfl, rfl⟩

/-- Quick-reply items used by concrete test sessions. -/
def c6Items : List String := [noopData]

/-- A session holding an unexpired offered choice set and a watermark that
supersedes the pressed button. -/
def c6WitnessSt : SessionState :=
  { emptyState with pendingQuickReply := some c6Items,
                    quickReplyStartTime := some 100000,
                    lastButtonPressTs := some 70000 }

/-- Witness for C6: the rejected press re-sends the stored choice set. -/
theorem c6_stale_button_recovery_witness :
    checkButtonAndGetErrorReply 350000 (some 60000) true .carousel c6WitnessSt =
      (c6WitnessSt, some (.textQR invalidButtonContinueMsg c6Items)) :=
  (c6_stale_button_recovery 350000 60000 c6WitnessSt (by decide)).1
    c6Items 100000 true .carousel rfl rfl (by decide) (by decide)

/-- C7.  A cancel trigger phrase is handled before any other text
processing in every session state: the write deletes exactly the eight
wizard payload fields and preserves the three replay-guard fields, the
booking store is untouched, and the reply is the cancel notice. -/
theorem c7_cancel_frame (cfg : ResvConfig) (now : Nat) (text : String) (db : Db)
    (h : cancelWords.contains text = true) :
    handleTextEvent cfg now text db =
      ({ db with st := clearWizardFields db.st }, some (.text cancelDoneMsg)) ∧
    (handleTextEvent cfg now text db).1.st.status = none ∧
    (handleTextEvent cfg now text db).1.st.createdAt = none ∧
    (handleTextEvent cfg now text db).1.st.editingDocId = none ∧
    (handleTextEvent cfg now text db).1.st.editSelectedDate = none ∧
    (handleTextEvent cfg now text db).1.st.deletingDocId = none ∧
    (handleTextEvent cfg now text db).1.st.deletingBandName = none ∧
    (handleTextEvent cfg now text db).1.st.pendingQuickReply = none ∧
    (handleTextEvent cfg now text db).1.st.quickReplyStartTime = none ∧
    (handleTextEvent cfg now text db).1.st.lastButtonPressTs = db.st.lastButtonPressTs ∧
    (handleTextEvent cfg now text db).1.st.lastViewMyCarouselTs = db.st.lastViewMyCarouselTs ∧
    (handleTextEvent cfg now text db).1.st.lastViewMyMorePage = db.st.lastViewMyMorePage ∧
    (handleTextEvent cfg now text db).1.resv = db.resv := by
  have hmain : handleTextEvent cfg now text db =
      ({ db with st := clearWizardFields db.st }, some (.text cancelDoneMsg)) := by
    unfold handleTextEvent
    rw [if_pos h]
    rfl
  refine ⟨hmain, ?_, ?_, ?_, ?_, ?_, ?_, ?_, ?_, ?_, ?_, ?_, ?_⟩ <;>
    rw [hmain] <;> rfl

/-- The cancel trigger used by the concrete witness. -/
def cancelTrigger : String := "キャンセル"

/-- A session in the middle of an edit flow, with replay-guard fields set. -/
def c7WitnessDb : Db :=
  { resv := [], nextId := 3,
    st := { emptyState with status := some .editingDatetime, createdAt := some 1000,
                            editingDocId := some 7, pendingQuickReply := some c6Items,
                            quickReplyStartTime := some 1000,
                            lastButtonPressTs := some 900,
                            lastViewMyCarouselTs := some 800,
                            lastViewMyMorePage := some 2 } }

/-- Witness for C7 at a concrete populated session. -/
theorem c7_cancel_frame_witness :
    handleTextEvent defaultConfig 2000 cancelTrigger c7WitnessDb =
      ({ c7WitnessDb with st := clearWizardFields c7WitnessDb.st },
       some (.text cancelDoneMsg)) :=
  (c7_cancel_frame defaultConfig 2000 cancelTrigger c7WitnessDb (by decide)).1

/-- C3.  A non-cancel text event hitting a session with an active status
whose `createdAt` lies 5 minutes or more in the past clears the wizard
fields, replies with the timeout notice, and processes nothing: the
booking store is unchanged. -/
theorem c3_session_timeout (cfg : ResvConfig) (now : Nat) (text : String)
    (db : Db) (c : Nat)
    (hc : cancelWords.contains text = false)
    (hs : db.st.status.isSome = true)
    (hca : db.st.createdAt = some c) (hexp : c + 300000 ≤ now) :
    handleTextEvent cfg now text db =
      ({ db with st := clearWizardFields db.st }, some (.text timeoutRegisterMsg)) ∧
    (handleTextEvent cfg now text db).1.resv = db.resv ∧
    (handleTextEvent cfg now text db).1.st.status = none ∧
    (handleTextEvent cfg now text db).1.st.pendingQuickReply = none := by
  have hmain : handleTextEvent cfg now text db =
      ({ db with st := clearWizardFields db.st }, some (.text timeoutRegisterMsg)) := by
    have h1 : ¬ (cancelWords.contains text = true) := by rw [hc]; simp
    have h2 : isSessionExpired now c = true := by unfold isSessionExpired; simp [hexp]
    unfold handleTextEvent
    rw [if_neg h1, if_pos hs]
    unfold handleOtherInput
    rw [hca]
    simp only [h2, if_true]
  refine ⟨hmain, ?_, ?_, ?_⟩ <;> rw [hmain] <;> rfl

/-- A band name that is not a trigger phrase. -/
def plainBandName : String := "NewBand"

/-- A session that has idled 350 seconds in the awaiting-band-name step. -/
def c3WitnessDb : Db :=
  { resv := [], nextId := 0,
    st := { emptyState with status := some .waitingBandName, createdAt := some 50000 } }

/-- Witness for C3: the 6-minute-old awaiting-name session times out. -/
theorem c3_session_timeout_witness :
    handleTextEvent defaultConfig 400000 plainBandName c3WitnessDb =
      ({ c3WitnessDb with st := clearWizardFields c3WitnessDb.st },
       some (.text timeoutRegisterMsg)) :=
  (c3_session_timeout defaultConfig 400000 plainBandName c3WitnessDb 50000
    (by decide) rfl rfl (by decide)).1

-- Concrete names used by the replay traces.

def bandA : String := "BandA"

def slotA : String := "10:00-12:00"

/-- Delivery, then identical re-delivery, of one accepted finalize button
(band `BandA`, same payload, same embedded `start` timestamp). -/
def finalizeReplayEvents : List (Nat × Event) :=
  [(1000, Event.finalize 6 slotA bandA (some 900)),
   (1100, Event.finalize 6 slotA bandA (some 900))]

/-- Counterexample to C1.  The finalize handler performs no watermark
check (only the embedded-start expiry check), so re-delivering an
already-accepted finalize within its 5-minute window creates a second,
identical pending booking: a second mutation of the booking store. -/
theorem c1_finalize_redelivery_counterexample :
    (runTrace defaultConfig [(1000, Event.finalize 6 slotA bandA (some 900))] emptyDb).resv.length = 1 ∧
    (runTrace defaultConfig finalizeReplayEvents emptyDb).resv.length = 2 ∧
    (runTrace defaultConfig finalizeReplayEvents emptyDb).resv.map
        (fun r => (r.bandName, r.day, r.slot, r.status)) =
      [(bandA, 6, slotA, ResStatus.pending), (bandA, 6, slotA, ResStatus.pending)] := by
  refine ⟨rfl, rfl, rfl⟩

/-- An accepted delete-execute run: the watermark is advanced to the
acceptance instant (inside the button check, before any other processing),
the delete fields are cleared, and the booking is deleted. -/
theorem handleDelete_accepted (now ts id : Nat) (db : Db)
    (hv : isCarouselButtonValid now ts db.st = .valid) :
    handleDeleteReservation now (some ts) (some id) db =
      ({ db with st := clearDeleteFields (recordButtonPress now db.st),
                 resv := db.resv.filter fun r => r.id != id },
       some (.text deleteSuccessMsg)) := by
  simp [handleDeleteReservation, checkButtonAndGetErrorReply, hv]

/-- The reply re-offered by `getOngoingOperationReply`, when present, is
always the stored quick-reply set. -/
theorem getOngoing_reply_shape (now : Nat) (st : SessionState) (b1 b2 : Bool) :
    ∀ (st' : SessionState) (r : Reply),
      getOngoingOperationReply now st b1 b2 = (st', some r) →
      st' = st ∧ ∃ q, st.pendingQuickReply = some q ∧
        r = .textQR (if b1 then invalidButtonContinueMsg
                     else if b2 then reservedWordContinueMsg
                     else continueChoosingMsg) q := by
  intro st' r heq
  unfold getOngoingOperationReply at heq
  cases hq : st.pendingQuickReply with
  | none => rw [hq] at heq; simp at heq
  | some q =>
    rw [hq] at heq
    simp only [] at heq
    split at heq
    · simp at heq
    · simp only [Prod.mk.injEq, Option.some.injEq] at heq
      exact ⟨heq.1.symm, q, rfl, heq.2.symm⟩

/-- A rejected delete-execute press never touches the booking store and
never reports the delete-success message. -/
theorem handleDelete_invalid (now t : Nat) (docId : Option Nat) (db : Db)
    (h : isCarouselButtonValid now t db.st ≠ .valid) :
    (handleDeleteReservation now (some t) docId db).1.resv = db.resv ∧
    (handleDeleteReservation now (some t) docId db).2 ≠
      some (.text deleteSuccessMsg) := by
  cases hres : isCarouselButtonValid now t db.st with
  | valid => exact absurd hres h
  | expired =>
    cases hgo : getOngoingOperationReply now db.st true false with
    | mk st' o =>
      cases o with
      | some r =>
        obtain ⟨hst, q, hq, hr⟩ := getOngoing_reply_shape now db.st true false st' r hgo
        constructor
        · simp [handleDeleteReservation, checkButtonAndGetErrorReply, hres, hgo]
        · simp [handleDeleteReservation, checkButtonAndGetErrorReply, hres, hgo, hr]
      | none =>
        constructor
        · simp [handleDeleteReservation, checkButtonAndGetErrorReply, hres, hgo]
        · simp [handleDeleteReservation, checkButtonAndGetErrorReply, hres, hgo]
          decide
  | outdated =>
    cases hgo : getOngoingOperationReply now db.st true false with
    | mk st' o =>
      cases o with
      | some r =>
        obtain ⟨hst, q, hq, hr⟩ := getOngoing_reply_shape now db.st true false st' r hgo
        constructor
        · simp [handleDeleteReservation, checkButtonAndGetErrorReply, hres, hgo]
        · simp [handleDeleteReservation, checkButtonAndGetErrorReply, hres, hgo, hr]
      | none =>
        constructor
        · simp [handleDeleteReservation, checkButtonAndGetErrorReply, hres, hgo]
        · simp [handleDeleteReservation, checkButtonAndGetErrorReply, hres, hgo]
          decide

/-- C1 (amended).  For the delete flow the claim holds: an accepted
delete-execute press advances the watermark to the acceptance instant,
and re-delivering the identical event (whose embedded timestamp does not
exceed the acceptance instant) is rejected, leaves the booking store
unchanged, and never reports a second delete success.  (The finalize flow
is the counterexample: it has no watermark check.) -/
theorem c1_delete_watermark_amended (db : Db) (t1 t2 ts id : Nat)
    (hv : isCarouselButtonValid t1 ts db.st = .valid)
    (hts : 0 < ts) (hw : ts ≤ t1) :
    (handleDeleteReservation t1 (some ts) (some id) db).2 =
      some (.text deleteSuccessMsg) ∧
    (handleDeleteReservation t1 (some ts) (some id) db).1.st.lastButtonPressTs =
      some t1 ∧
    (handleDeleteReservation t2 (some ts) (some id)
        (handleDeleteReservation t1 (some ts) (some id) db).1).1.resv =
      (handleDeleteReservation t1 (some ts) (some id) db).1.resv ∧
    (handleDeleteReservation t2 (some ts) (some id)
        (handleDeleteReservation t1 (some ts) (some id) db).1).2 ≠
      some (.text deleteSuccessMsg) := by
  have h1 := handleDelete_accepted t1 ts id db hv
  have hv2 : isCarouselButtonValid t2 ts
      (handleDeleteReservation t1 (some ts) (some id) db).1.st ≠ .valid := by
    rw [h1]
    unfold isCarouselButtonValid clearDeleteFields recordButtonPress isSessionExpired
    by_cases he : ts + 300000 ≤ t2
    · simp [he]
    · simp only [he]
      have ht1 : t1 ≠ 0 := by omega
      simp [ht1, hw, he]
  have h2 := handleDelete_invalid t2 ts (some id)
    (handleDeleteReservation t1 (some ts) (some id) db).1 hv2
  exact ⟨by rw [h1], by rw [h1]; rfl, h2.1, h2.2⟩

/-- The store on which the delete-replay witness runs: one booking, no
session fields. -/
def c1WitnessDb : Db :=
  { resv := [{ id := 4, bandName := bandA, day := 6, slot := slotA,
               status := .pending, createdAt := 10 }],
    nextId := 5, st := emptyState }

/-- Witness for the amended C1 at concrete instants. -/
theorem c1_delete_watermark_amended_witness :
    (handleDeleteReservation 1000 (some 500) (some 4) c1WitnessDb).2 =
      some (.text deleteSuccessMsg) ∧
    (handleDeleteReservation 2000 (some 500) (some 4)
        (handleDeleteReservation 1000 (some 500) (some 4) c1WitnessDb).1).2 ≠
      some (.text deleteSuccessMsg) :=
  have h := c1_delete_watermark_amended c1WitnessDb 1000 2000 500 4
    (by decide) (by decide) (by decide)
  ⟨h.1, h.2.2.2⟩

/-- The "view my bookings" trigger used by the traces. -/
def viewMyTrigger : String := "マイ予約"

/-- Trace reaching a state with both payload groups populated: finalize a
booking, list it, press its edit-datetime button, let a stale button
trigger the quick-reply expiry cleanup (which clears `status` but not
`editingDocId`), list again, then press the new delete button. -/
def c4TraceEvents : List (Nat × Event) :=
  [(1000, Event.finalize 6 slotA bandA (some 900)),
   (1500, Event.text viewMyTrigger),
   (2000, Event.editDatetime (some 0) (some 1500)),
   (303000, Event.editReservation (some 0) (some 1500)),
   (304000, Event.text viewMyTrigger),
   (305000, Event.confirmDelete (some 0) bandA (some 304000))]

/-- Counterexample to C4.  After the trace above — every button pressed
was genuinely issued, the stale press being a transport re-delivery — the
session holds `editingDocId` and `deletingDocId` at the same time: the
at-most-one-payload-group invariant fails, because the quick-reply expiry
cleanup clears `status` without clearing the editing group. -/
theorem c4_payload_groups_counterexample :
    (runTrace defaultConfig c4TraceEvents emptyDb).st.editingDocId = some 0 ∧
    (runTrace defaultConfig c4TraceEvents emptyDb).st.deletingDocId = some 0 ∧
    (runTrace defaultConfig c4TraceEvents emptyDb).st.status =
      some .waitingDeleteConfirm := by
  refine ⟨rfl, rfl, rfl⟩

/-- C4 (amended).  Writes that set a status do set the corresponding
payload group in the same write, and the cancel clear removes the status
together with both full payload groups; but the quick-reply expiry
cleanup clears `status` while preserving both payload groups, and the
delete-confirmation merge write does not clear the editing group — so a
session with both groups populated is reachable. -/
theorem c4_status_payload_writes_amended :
    (∀ (now : Nat) (st : SessionState) (b1 b2 : Bool) (q : List String) (qt : Nat),
      st.pendingQuickReply = some q → st.quickReplyStartTime = some qt →
      qt ≠ 0 → qt + 300000 ≤ now →
      (getOngoingOperationReply now st b1 b2).1 =
        { st with pendingQuickReply := none, quickReplyStartTime := none,
                  status := none, createdAt := none }) ∧
    (∀ (now : Nat) (db : Db) (id : Nat) (band : String) (ts : Nat),
      isCarouselButtonValid now ts db.st = .valid →
      ((handleConfirmDelete now (some id) band (some ts) db).1.st.status =
          some .waitingDeleteConfirm ∧
       (handleConfirmDelete now (some id) band (some ts) db).1.st.deletingDocId =
          some id ∧
       (handleConfirmDelete now (some id) band (some ts) db).1.st.deletingBandName =
          some band ∧
       (handleConfirmDelete now (some id) band (some ts) db).1.st.editingDocId =
          db.st.editingDocId ∧
       (handleConfirmDelete now (some id) band (some ts) db).1.st.editSelectedDate =
          db.st.editSelectedDate)) ∧
    (∀ db : Db, (handleCancelRequest db).1.st = clearWizardFields db.st) ∧
    (∀ st : SessionState,
      (clearWizardFields st).status = none ∧
      (clearWizardFields st).editingDocId = none ∧
      (clearWizardFields st).editSelectedDate = none ∧
      (clearWizardFields st).deletingDocId = none ∧
      (clearWizardFields st).deletingBandName = none) := by
  refine ⟨?_, ?_, fun db => rfl, fun st => ⟨rfl, rfl, rfl, rfl, rfl⟩⟩
  · intro now st b1 b2 q qt hq hqt h0 hexp
    unfold getOngoingOperationReply isSessionExpired
    simp [hq, hqt, h0, hexp]
  · intro now db id band ts hv
    have hmain : handleConfirmDelete now (some id) band (some ts) db =
        ({ db with st :=
            { recordButtonPress now db.st with
                status := some .waitingDeleteConfirm, deletingDocId := some id,
                deletingBandName := some band, createdAt := some now } },
         some (.confirm (deleteConfirmQuestion band)
                (deleteResvData (some id) (now + 10)) (cancelDeleteData (now + 10)))) := by
      simp [handleConfirmDelete, checkButtonAndGetErrorReply, hv]
    refine ⟨?_, ?_, ?_, ?_, ?_⟩ <;> rw [hmain] <;> rfl

/-- A session mid-edit with an expired pending quick reply. -/
def c4CleanupSt : SessionState :=
  { emptyState with status := some .editingDatetime, createdAt := some 100000,
                    editingDocId := some 9, pendingQuickReply := some c6Items,
                    quickReplyStartTime := some 100000,
                    lastButtonPressTs := some 100000 }

/-- Witness for the amended C4: the expiry cleanup clears `status` yet
keeps `editingDocId`, and an accepted delete confirmation then populates
the deleting group while the editing group is still set. -/
theorem c4_status_payload_writes_amended_witness :
    (getOngoingOperationReply 400001 c4CleanupSt true false).1 =
      { c4CleanupSt with pendingQuickReply := none, quickReplyStartTime := none,
                         status := none, createdAt := none } ∧
    (handleConfirmDelete 305000 (some 0) bandA (some 304000)
        { resv := [], nextId := 1,
          st := { emptyState with editingDocId := some 9,
                                  lastButtonPressTs := some 2000 } }).1.st.editingDocId =
      some 9 :=
  ⟨c4_status_payload_writes_amended.1 400001 c4CleanupSt true false c6Items 100000
      rfl rfl (by decide) (by decide),
   (c4_status_payload_writes_amended.2.1 305000
      { resv := [], nextId := 1,
        st := { emptyState with editingDocId := some 9,
                                lastButtonPressTs := some 2000 } }
      0 bandA 304000 (by decide)).2.2.2.1⟩

/-- The starting store of the "show more" replay trace: a session whose
watermark predates both listing generations. -/
def c5Db : Db :=
  { resv := [], nextId := 0, st := { emptyState with lastButtonPressTs := some 50 } }

/-- First press: page 1 of listing generation 100 (accepted, recorded). -/
def c5Step1 : Db := (handleViewMyMore defaultConfig 150 1 (some 100) c5Db).1

/-- Second press: page 1 of a different generation 200 (accepted). -/
def c5Step2 : Db := (handleViewMyMore defaultConfig 250 1 (some 200) c5Step1).1

/-- Counterexample to C5.  After page 1 of generation 100 was accepted
and recorded, an accepted press of generation 200 overwrites the record;
re-pressing page 1 of generation 100 then succeeds a second time (it is
recorded again and does not produce the already-pressed rejection). -/
theorem c5_forward_only_counterexample :
    c5Step1.st.lastViewMyCarouselTs = some 100 ∧
    c5Step1.st.lastViewMyMorePage = some 1 ∧
    c5Step2.st.lastViewMyCarouselTs = some 200 ∧
    (handleViewMyMore defaultConfig 300 1 (some 100) c5Step2).1.st.lastViewMyCarouselTs =
      some 100 ∧
    (handleViewMyMore defaultConfig 300 1 (some 100) c5Step2).1.st.lastViewMyMorePage =
      some 1 ∧
    (handleViewMyMore defaultConfig 300 1 (some 100) c5Step2).2 ≠
      some (.text alreadyPressedMsg) := by
  refine ⟨rfl, rfl, rfl, rfl, rfl, by decide⟩

/-- C5 (amended).  A "show more" press is accepted only if it references
a generation other than the recorded one or a strictly later page of the
recorded generation; after a press for page `q` of generation `g` is
recorded, every press for a page `p ≤ q` of that same generation is
rejected — for as long as `g` remains the recorded generation. -/
theorem c5_forward_only_amended :
    (∀ (st : SessionState) (p g : Nat),
      isViewMyMoreValid p g st = true →
      st.lastViewMyCarouselTs ≠ some g ∨ st.lastViewMyMorePage.getD 0 < p) ∧
    (∀ (st : SessionState) (p q g : Nat), p ≤ q →
      isViewMyMoreValid p g (recordViewMyMore q g st) = false) := by
  constructor
  · intro st p g h
    by_cases hg : st.lastViewMyCarouselTs = some g
    · right
      simp [isViewMyMoreValid, hg] at h
      omega
    · exact Or.inl hg
  · intro st p q g hpq
    simp [isViewMyMoreValid, recordViewMyMore, hpq]

/-- Witness for the amended C5: directly after recording page 1 of
generation 100, the identical press is rejected. -/
theorem c5_forward_only_amended_witness :
    isViewMyMoreValid 1 100
      (recordViewMyMore 1 100 { emptyState with lastButtonPressTs := some 50 }) = false :=
  c5_forward_only_amended.2 { emptyState with lastButtonPressTs := some 50 }
    1 1 100 (Nat.le_refl 1)
